import Mathlib

/-!
Verification development for the Ganglion biosensing decoder
(ganglion_biosensing/boards/ganglion.py, boards/sample.py and
boards/board.py).

The decoder receives raw notification payloads (byte lists), classifies
them by their leading tag byte, and maintains the mutable state of
_GanglionDelegate.  Two defects of the source shape the semantics:

* boards/sample.py defines OpenBCISample as a NamedTuple with four
  required fields (seq, timestamp, channel_data, board), while every
  construction site in ganglion.py passes exactly two positional
  arguments, so every construction raises TypeError;
* _decompress_signed slices the generator returned by BitArray.cut
  (channel_samples[:4] and channel_samples[4:] at ganglion.py lines
  38-39), and slicing a generator raises TypeError, so the compressed
  decode raises on every call.

Accordingly handleNotification is modelled as returning either
HandleResult.ok st outs (normal return) or HandleResult.exc st outs (a
TypeError escaped), where st is the delegate state at the moment
control leaves the method and outs are the samples put on the result
queue before that moment, in the precise order of mutations of the
source.  Machine integers are Int with an explicit wrap to the signed
32-bit range where numpy int32 arithmetic occurs; NaN channel values
are none in Option Int; a failing Python expression (a generator
subscript, an out-of-shape numpy subtraction, a constructor call with
missing arguments) is modelled as none in an Option.
-/

set_option maxRecDepth 40000

namespace GanglionBio

/-- Wrap an integer into the signed 32-bit range, modelling numpy int32
arithmetic (dtype=np.int32 in ganglion.py). -/
def toInt32 (z : Int) : Int := (z + 2 ^ 31) % 2 ^ 32 - 2 ^ 31

/-- The eight bits of a byte, most significant first.  Models the
string formatting f-string 0b-08b used by handleNotification to append
each byte to the BitArray. -/
def byteBits (b : Nat) : List Bool :=
  (List.range 8).map (fun i => Nat.testBit b (7 - i))

/-- All bits of a byte list, in order. -/
def bytesBits (bs : List Nat) : List Bool := (bs.map byteBits).flatten

/-- Unsigned integer value of an MSB-first bit list (BitArray.uint). -/
def bitsUint (l : List Bool) : Nat :=
  l.foldl (fun acc b => 2 * acc + b.toNat) 0

/-- Signed twos-complement value of an MSB-first bit list
(BitArray.int, used for the 24-bit fields of uncompressed frames). -/
def bitsInt (l : List Bool) : Int :=
  if l.headD false then (bitsUint l : Int) - 2 ^ l.length else (bitsUint l : Int)

/-- The chunks yielded by the BitArray.cut n generator of the
bitstring library: successive n-bit slices of the bit list; when the
length is not a multiple of n the generator yields a final shorter
chunk and then stops, so the chunk count is the length divided by n,
rounded up. -/
def cutBits (n : Nat) (l : List Bool) : List (List Bool) :=
  if n = 0 then []
  else (List.range ((l.length + n - 1) / n)).map
    (fun i => (l.drop (n * i)).take n)

/-- A Python generator object, carrying the items it would yield when
iterated. -/
structure PyGen (α : Type) where
  items : List α
deriving Repr, DecidableEq

/-- Subscripting or slicing a generator object raises TypeError in
Python: generators are not subscriptable.  The slice bounds are kept
only to mirror the source expressions. -/
def pyGenSlice {α : Type} (_g : PyGen α) (_lo _hi : Option Nat) :
    Option (List α) :=
  none

/-- One iteration body of the _process_channels loop in
_decompress_signed: read the chunk as an unsigned code; if the chunk
ends with a 1 bit the delta is -(code - 1), otherwise the code
itself. -/
def decompressChannel (chunk : List Bool) : Int :=
  let code : Int := bitsUint chunk
  if chunk.getLast? = some true then -(code - 1) else code

/-- _process_channels: decode each chunk of a sample and collect the
deltas into an int32 numpy array. -/
def processChannels (sample : List (List Bool)) : List Int :=
  sample.map (fun c => toInt32 (decompressChannel c))

/-- _decompress_signed (ganglion.py lines 22-40): channel_samples is
the generator produced by bit_array.cut(18) or bit_array.cut(19); the
source then evaluates channel_samples[:4] and channel_samples[4:], and
slicing a generator raises TypeError, so the function raises on every
call and never produces the two delta arrays; none models the raise.
(Contrast the full-frame path of handleNotification, which iterates
bit_array.cut(24) in a for loop, which is valid.) -/
def decompressSigned (pkt_id : Nat) (bits : List Bool) :
    Option (List Int × List Int) :=
  let channel_samples : PyGen (List Bool) :=
    ⟨cutBits (if pkt_id ≤ 100 then 18 else 19) bits⟩
  match pyGenSlice channel_samples none (some 4),
        pyGenSlice channel_samples (some 4) none with
  | some s1, some s2 => some (processChannels s1, processChannels s2)
  | _, _ => none

/-- The signed-delta decoding rule as worded by the specification:
an even code decodes to itself, an odd code to -(code - 1). -/
def decodeSpec (code : Nat) : Int :=
  if code % 2 = 1 then -((code : Int) - 1) else (code : Int)

/- ### data model: the sample record of boards/sample.py -/

/-- The board types of boards/board.py. -/
inductive BoardType
  | GANGLION
  | CYTON
deriving Repr, DecidableEq

/-- A Python value passed positionally to the OpenBCISample
constructor. -/
inductive PyArg
  | int (n : Int)
  | arr (xs : List (Option Int))
  | flt (q : Rat)
  | btype (b : BoardType)
deriving Repr, DecidableEq

/-- OpenBCISample as defined in boards/sample.py: a NamedTuple with
four required fields seq, timestamp, channel_data and board. -/
structure OpenBCISample where
  seq : PyArg
  timestamp : PyArg
  channel_data : PyArg
  board : PyArg
deriving Repr, DecidableEq

/-- Calling the four-field NamedTuple constructor on a list of
positional arguments: unless exactly four are supplied, Python raises
a TypeError, modelled as none. -/
def callOpenBCISample (args : List PyArg) : Option OpenBCISample :=
  match args with
  | [a, b, c, d] => some ⟨a, b, c, d⟩
  | _ => none

/-- The positional arguments handleNotification passes at every
sample-emission site: OpenBCISample(self._sample_cnt, values). -/
def ganglionSampleArgs (cnt : Nat) (vals : List (Option Int)) :
    List PyArg :=
  [PyArg.int (cnt : Int), PyArg.arr vals]

/- ### data model: delegate state and results -/

/-- The payload an emitted sample would carry: a sequence number and a
channel array.  A channel value of none models the np.NaN sentinel of
placeholder samples. -/
structure Sample where
  seq : Nat
  channel_data : List (Option Int)
deriving Repr, DecidableEq

/-- The channel array np.array([np.NaN] * 4) of a placeholder sample. -/
def nanChannels : List (Option Int) := [none, none, none, none]

/-- The mutable state of _GanglionDelegate: last reconstructed absolute
channel values, last observed tag byte, running sample counter, and the
resynchronization flag. -/
structure DelegateState where
  last_values : List Int
  last_id : Int
  sample_cnt : Nat
  wait_for_full_pkt : Bool
deriving Repr, DecidableEq

/-- The state set up by _GanglionDelegate.__init__. -/
def initState : DelegateState :=
  { last_values := [0, 0, 0, 0], last_id := -1, sample_cnt := 0,
    wait_for_full_pkt := true }

/-- The expression OpenBCISample(self._sample_cnt, values) at every
emission site of ganglion.py: a two-argument call of the four-field
NamedTuple, which raises TypeError, modelled through
callOpenBCISample; had it succeeded it would carry the counter and the
channel values. -/
def mkSample (cnt : Nat) (vals : List (Option Int)) : Option Sample :=
  match callOpenBCISample (ganglionSampleArgs cnt vals) with
  | some _ => some { seq := cnt, channel_data := vals }
  | none => none

/-- Result of the dummy-sample loop: a normal exit with the generated
samples and the delegate state, or an escaped TypeError with the state
at the raise. -/
inductive LoopResult where
  | ok (dummies : List Sample) (st : DelegateState)
  | exc (st : DelegateState)
deriving Repr, DecidableEq

/-- The dummy-sample loop for i in range(dropped, -1, -1) of
_upd_sample_count (ganglion.py lines 278-283), which iterates
max(dropped + 1, 0) times; each iteration constructs two placeholder
samples and then advances the counter by two, so the first
construction of the first iteration raises TypeError with the counter
still untouched. -/
def dummyLoop (st : DelegateState) : Nat → LoopResult
  | 0 => .ok [] st
  | iters + 1 =>
    match mkSample st.sample_cnt nanChannels,
          mkSample (st.sample_cnt + 1) nanChannels with
    | some s1, some s2 =>
      match dummyLoop { st with sample_cnt := st.sample_cnt + 2 } iters with
      | .ok ds st2 => .ok (s1 :: s2 :: ds) st2
      | .exc e => .exc e
    | _, _ => .exc st

/-- The dropped-frame computation of _upd_sample_count (ganglion.py
lines 266-273) for a tag num outside {0, 206, 207}, against the last
observed tag. -/
def gapCount (last_id : Int) (num : Nat) : Int :=
  if last_id = 0 then
    (if 101 ≤ num then (num : Int) - 101 else (num : Int) - 1)
  else ((num : Int) - last_id) - 1

/-- Result of _upd_sample_count: either the pair the method returns
(dropped count and dummy samples) with the updated state, or an
escaped TypeError with the state at the raise. -/
inductive UpdResult where
  | ok (dropped : Int) (dummies : List Sample) (st : DelegateState)
  | exc (st : DelegateState)
deriving Repr, DecidableEq

/-- _upd_sample_count (ganglion.py lines 262-285): tags 0, 206 and 207
skip the whole dropped-frame block; otherwise the dropped count is
computed and the dummy loop runs; the assignment self._last_id = num
(line 284) is reached only when no exception was raised in the
loop. -/
def updSampleCount (st : DelegateState) (num : Nat) : UpdResult :=
  if num = 0 ∨ num = 206 ∨ num = 207 then
    .ok 0 [] { st with last_id := (num : Int) }
  else
    let dropped := gapCount st.last_id num
    match dummyLoop st ((dropped + 1).toNat) with
    | .ok ds st2 => .ok dropped ds { st2 with last_id := (num : Int) }
    | .exc e => .exc e

/-- Elementwise numpy subtraction on int32 arrays, including scalar
broadcasting of a length-one operand; none models the numpy broadcast
error raised for incompatible shapes. -/
def npSub (a b : List Int) : Option (List Int) :=
  if a.length = b.length then
    some (List.zipWith (fun x y => toInt32 (x - y)) a b)
  else if b.length = 1 then
    some (a.map (fun x => toInt32 (x - b.headD 0)))
  else if a.length = 1 then
    some (b.map (fun y => toInt32 (a.headD 0 - y)))
  else none

/-- The values of an uncompressed frame: bytes data[1:13] of the
payload, cut into 24-bit chunks (iterated, not sliced, so this path is
valid), each read as a signed integer into an int32 array. -/
def decodeFullFrame (rest : List Nat) : List Int :=
  (cutBits 24 (bytesBits (rest.take 12))).map (fun c => toInt32 (bitsInt c))

/-- Result of handleNotification: a normal return or an escaped
TypeError, with the delegate state at exit and the samples put on the
result queue before exit. -/
inductive HandleResult where
  | ok (st : DelegateState) (outs : List Sample)
  | exc (st : DelegateState) (outs : List Sample)
deriving Repr, DecidableEq

/-- The samples put on the result queue during the call, whether or
not a TypeError escaped. -/
def HandleResult.samples : HandleResult → List Sample
  | .ok _ outs => outs
  | .exc _ outs => outs

/-- The delegate state when control leaves handleNotification,
normally or by exception. -/
def HandleResult.state : HandleResult → DelegateState
  | .ok st _ => st
  | .exc st _ => st

/-- The body of handleNotification for a payload num :: rest, with the
precise order of mutations of the source: the resync flag is cleared
(line 218) before frame processing; last_values is assigned (lines 240
and 254) before the sample constructions (lines 243-244 and 256-259),
which raise TypeError; the counter advances only after a successful
construction. -/
def handleFrame (st : DelegateState) (num : Nat) (rest : List Nat) :
    HandleResult :=
  match updSampleCount st num with
  | .exc e => .exc e []
  | .ok dropped dummies st1 =>
    if st.wait_for_full_pkt ∧ num ≠ 0 then .ok st1 dummies
    else
      let st2 := if st.wait_for_full_pkt then
          { st1 with wait_for_full_pkt := false }
        else st1
      if 0 < dropped then .ok { st2 with wait_for_full_pkt := true } dummies
      else if num = 0 then
        let vals := decodeFullFrame rest
        let st3 := { st2 with last_values := vals }
        match mkSample st3.sample_cnt (vals.map some) with
        | none => .exc st3 []
        | some s =>
          .ok { st3 with sample_cnt := st3.sample_cnt + 1 } [s]
      else if 1 ≤ num ∧ num ≤ 200 then
        match decompressSigned num (bytesBits rest) with
        | none => .exc st2 []
        | some p =>
          match npSub st2.last_values p.1 with
          | none => .exc st2 []
          | some tmp =>
            match npSub tmp p.2 with
            | none => .exc st2 []
            | some newVals =>
              let st3 := { st2 with last_values := newVals }
              match mkSample st3.sample_cnt (tmp.map some) with
              | none => .exc st3 []
              | some s1 =>
                match mkSample (st3.sample_cnt + 1) (newVals.map some) with
                | none => .exc st3 [s1]
                | some s2 =>
                  .ok { st3 with sample_cnt := st3.sample_cnt + 2 } [s1, s2]
      else .ok st2 []

/-- handleNotification on a raw payload: a payload of fewer than one
byte is dropped with a warning; otherwise the first byte is the tag
and the rest the frame body. -/
def handleNotification (st : DelegateState) (data : List Nat) :
    HandleResult :=
  match data with
  | [] => .ok st []
  | num :: rest => handleFrame st num rest

/-- Process payloads in arrival order.  An escaped exception ends the
run: in the source it propagates out of the delegate into the polling
loop, which logs it and terminates the streaming thread, so no further
notification is processed. -/
def runFrames (st : DelegateState) : List (List Nat) → HandleResult
  | [] => .ok st []
  | d :: ds =>
    match handleNotification st d with
    | .exc e outs => .exc e outs
    | .ok st1 out1 =>
      match runFrames st1 ds with
      | .ok st2 outs2 => .ok st2 (out1 ++ outs2)
      | .exc e outs2 => .exc e (out1 ++ outs2)

/- ### basic lemmas about the bit-level codec -/

theorem bitsUint_append (l : List Bool) (b : Bool) :
    bitsUint (l ++ [b]) = 2 * bitsUint l + b.toNat := by
  simp [bitsUint, List.foldl_append]

theorem bitsUint_lt (l : List Bool) : bitsUint l < 2 ^ l.length := by
  suffices h : ∀ (l : List Bool) (a : Nat),
      l.foldl (fun acc b => 2 * acc + b.toNat) a < (a + 1) * 2 ^ l.length by
    simpa [bitsUint] using h l 0
  intro l
  induction l with
  | nil => intro a; simp
  | cons b t ih =>
    intro a
    calc (b :: t).foldl (fun acc b => 2 * acc + b.toNat) a
        = t.foldl (fun acc b => 2 * acc + b.toNat) (2 * a + b.toNat) := by
          simp [List.foldl_cons]
      _ < (2 * a + b.toNat + 1) * 2 ^ t.length := ih _
      _ ≤ (a + 1) * 2 ^ (b :: t).length := by
          have hb : b.toNat ≤ 1 := Bool.toNat_le b
          have : (2 * a + b.toNat + 1) ≤ 2 * (a + 1) := by omega
          calc (2 * a + b.toNat + 1) * 2 ^ t.length
              ≤ (2 * (a + 1)) * 2 ^ t.length :=
                Nat.mul_le_mul_right _ this
            _ = (a + 1) * 2 ^ (t.length + 1) := by ring
            _ = (a + 1) * 2 ^ (b :: t).length := by simp

theorem bitsUint_parity (l : List Bool) :
    bitsUint l % 2 = 1 ↔ l.getLast? = some true := by
  induction l using List.reverseRecOn with
  | nil => simp [bitsUint]
  | append_singleton t b _ =>
    rw [bitsUint_append, List.getLast?_concat]
    cases b
    · simp
    · simp
      omega

theorem toInt32_eq_self {z : Int} (h1 : -2 ^ 31 ≤ z) (h2 : z < 2 ^ 31) :
    toInt32 z = z := by
  unfold toInt32
  have : (z + 2 ^ 31) % 2 ^ 32 = z + 2 ^ 31 :=
    Int.emod_eq_of_lt (by omega) (by omega)
  omega

/-- For chunks of at most 19 bits, the int32 wrap is the identity and
the per-channel decode agrees with the odd/even rule of the spec. -/
theorem decompressChannel_decodeSpec {c : List Bool} (hc : c.length ≤ 19) :
    toInt32 (decompressChannel c) = decodeSpec (bitsUint c) := by
  have hlt : bitsUint c < 2 ^ 19 := by
    calc bitsUint c < 2 ^ c.length := bitsUint_lt c
      _ ≤ 2 ^ 19 := Nat.pow_le_pow_right (by norm_num) hc
  unfold decompressChannel decodeSpec
  by_cases hodd : bitsUint c % 2 = 1
  · rw [if_pos hodd, if_pos ((bitsUint_parity c).mp hodd)]
    have h1 : 1 ≤ bitsUint c := by omega
    apply toInt32_eq_self
    · have : (bitsUint c : Int) ≤ 2 ^ 19 := by exact_mod_cast hlt.le
      omega
    · have : (1 : Int) ≤ (bitsUint c : Int) := by exact_mod_cast h1
      omega
  · rw [if_neg hodd, if_neg (fun h => hodd ((bitsUint_parity c).mpr h))]
    apply toInt32_eq_self
    · have : (0 : Int) ≤ (bitsUint c : Int) := Int.natCast_nonneg _
      omega
    · have : (bitsUint c : Int) < 2 ^ 19 := by exact_mod_cast hlt
      omega

/- ### branch equations for the delegate -/

theorem mkSample_eq_none (cnt : Nat) (vals : List (Option Int)) :
    mkSample cnt vals = none := rfl

theorem decompressSigned_eq_none (pkt_id : Nat) (bits : List Bool) :
    decompressSigned pkt_id bits = none := rfl

theorem dummyLoop_zero (st : DelegateState) :
    dummyLoop st 0 = .ok [] st := rfl

theorem dummyLoop_succ (st : DelegateState) (k : Nat) :
    dummyLoop st (k + 1) = .exc st := rfl

theorem updSampleCount_marker (st : DelegateState) (num : Nat)
    (h : num = 0 ∨ num = 206 ∨ num = 207) :
    updSampleCount st num = .ok 0 [] { st with last_id := (num : Int) } := by
  unfold updSampleCount
  rw [if_pos h]

theorem updSampleCount_nonneg (st : DelegateState) (num : Nat)
    (hmark : ¬(num = 0 ∨ num = 206 ∨ num = 207))
    (hg : 0 ≤ gapCount st.last_id num) :
    updSampleCount st num = .exc st := by
  unfold updSampleCount
  rw [if_neg hmark]
  have hk : (gapCount st.last_id num + 1).toNat
      = (gapCount st.last_id num).toNat + 1 := by omega
  simp only [hk, dummyLoop_succ]

theorem updSampleCount_neg (st : DelegateState) (num : Nat)
    (hmark : ¬(num = 0 ∨ num = 206 ∨ num = 207))
    (hg : gapCount st.last_id num < 0) :
    updSampleCount st num =
      .ok (gapCount st.last_id num) [] { st with last_id := (num : Int) } := by
  unfold updSampleCount
  rw [if_neg hmark]
  have hk : (gapCount st.last_id num + 1).toNat = 0 := by omega
  simp only [hk, dummyLoop_zero]

theorem handleFrame_upd_exc (st : DelegateState) (num : Nat)
    (rest : List Nat) (hmark : ¬(num = 0 ∨ num = 206 ∨ num = 207))
    (hg : 0 ≤ gapCount st.last_id num) :
    handleFrame st num rest = .exc st [] := by
  unfold handleFrame
  rw [updSampleCount_nonneg st num hmark hg]

theorem handleFrame_wait_nonzero (st : DelegateState) (num : Nat)
    (rest : List Nat) (d : Int) (ds : List Sample) (st1 : DelegateState)
    (hw : st.wait_for_full_pkt = true) (hnum : num ≠ 0)
    (hupd : updSampleCount st num = .ok d ds st1) :
    handleFrame st num rest = .ok st1 ds := by
  simp only [handleFrame, hupd]
  rw [if_pos ⟨hw, hnum⟩]

theorem handleFrame_full (st : DelegateState) (rest : List Nat) :
    handleFrame st 0 rest =
      .exc { st with last_id := 0, last_values := decodeFullFrame rest,
                     wait_for_full_pkt := false } [] := by
  have hm := updSampleCount_marker st 0 (Or.inl rfl)
  by_cases hw : st.wait_for_full_pkt <;>
    simp [handleFrame, hm, hw, mkSample_eq_none]

theorem handleFrame_marker (st : DelegateState) (num : Nat)
    (rest : List Nat) (h : num = 206 ∨ num = 207) :
    handleFrame st num rest = .ok { st with last_id := (num : Int) } [] := by
  have hm := updSampleCount_marker st num (Or.inr h)
  have hnum : num ≠ 0 := by rcases h with rfl | rfl <;> decide
  have hbig : ¬(1 ≤ num ∧ num ≤ 200) := by
    rcases h with rfl | rfl <;> decide
  by_cases hw : st.wait_for_full_pkt <;>
    simp [handleFrame, hm, hw, hnum, hbig]

theorem handleFrame_compressed_exc (st : DelegateState) (num : Nat)
    (rest : List Nat) (hw : st.wait_for_full_pkt = false)
    (h1 : 1 ≤ num) (h2 : num ≤ 200)
    (hg : gapCount st.last_id num < 0) :
    handleFrame st num rest = .exc { st with last_id := (num : Int) } [] := by
  have hmark : ¬(num = 0 ∨ num = 206 ∨ num = 207) := by omega
  have hm := updSampleCount_neg st num hmark hg
  have hnum : num ≠ 0 := by omega
  have hng : ¬((0 : Int) < gapCount st.last_id num) := by omega
  simp [handleFrame, hm, hw, hnum, hng, h1, h2, decompressSigned_eq_none]

theorem handleFrame_other (st : DelegateState) (num : Nat)
    (rest : List Nat) (hw : st.wait_for_full_pkt = false)
    (hmark : ¬(num = 0 ∨ num = 206 ∨ num = 207)) (hbig : 200 < num)
    (hg : gapCount st.last_id num < 0) :
    handleFrame st num rest = .ok { st with last_id := (num : Int) } [] := by
  have hm := updSampleCount_neg st num hmark hg
  have hnum : num ≠ 0 := by omega
  have hng : ¬((0 : Int) < gapCount st.last_id num) := by omega
  have hb : ¬(1 ≤ num ∧ num ≤ 200) := by omega
  simp [handleFrame, hm, hw, hnum, hng, hb]

/- ### no sample is ever emitted -/

theorem handleFrame_samples (st : DelegateState) (num : Nat)
    (rest : List Nat) : (handleFrame st num rest).samples = [] := by
  by_cases hmark : num = 0 ∨ num = 206 ∨ num = 207
  · rcases hmark with h0 | hm
    · subst h0
      rw [handleFrame_full]
      rfl
    · rw [handleFrame_marker st num rest hm]
      rfl
  · by_cases hg : 0 ≤ gapCount st.last_id num
    · rw [handleFrame_upd_exc st num rest hmark hg]
      rfl
    · have hgneg : gapCount st.last_id num < 0 := by omega
      have hm := updSampleCount_neg st num hmark hgneg
      by_cases hw : st.wait_for_full_pkt
      · rw [handleFrame_wait_nonzero st num rest _ _ _ hw (by tauto) hm]
        rfl
      · have hwf : st.wait_for_full_pkt = false := by simpa using hw
        by_cases hrange : num ≤ 200
        · rw [handleFrame_compressed_exc st num rest hwf (by omega)
            hrange hgneg]
          rfl
        · rw [handleFrame_other st num rest hwf hmark (by omega) hgneg]
          rfl

theorem handleNotification_samples (st : DelegateState) (data : List Nat) :
    (handleNotification st data).samples = [] := by
  cases data with
  | nil => rfl
  | cons num rest => exact handleFrame_samples st num rest

theorem runFrames_samples :
    ∀ (frames : List (List Nat)) (st : DelegateState),
    (runFrames st frames).samples = [] := by
  intro frames
  induction frames with
  | nil => intro st; rfl
  | cons d ds ih =>
    intro st
    rcases hH : handleNotification st d with ⟨st1, out1⟩ | ⟨e1, outs1⟩
    · have h1 : out1 = [] := by
        simpa [hH, HandleResult.samples] using
          handleNotification_samples st d
      rcases hR : runFrames st1 ds with ⟨st2, outs2⟩ | ⟨e2, outs2⟩
      · have h2 : outs2 = [] := by
          simpa [hR, HandleResult.samples] using ih st1
        simp [runFrames, hH, hR, h1, h2, HandleResult.samples]
      · have h2 : outs2 = [] := by
          simpa [hR, HandleResult.samples] using ih st1
        simp [runFrames, hH, hR, h1, h2, HandleResult.samples]
    · have h1 : outs1 = [] := by
        simpa [hH, HandleResult.samples] using
          handleNotification_samples st d
      simp [runFrames, hH, h1, HandleResult.samples]

/- ### the claims -/

/-- C1 (code bug): _decompress_signed raises TypeError on every call,
because it slices the generator returned by bit_array.cut
(channel_samples[:4] at ganglion.py line 38), so the eight decoded
delta fields the claim describes are never produced; the decoding rule
itself, as coded in the inner _process_channels, does match the claim
for every chunk of at most 19 bits: an even code decodes to itself and
an odd code to -(code - 1), with decode(0)=0, decode(1)=0,
decode(2)=2, decode(3)=-2. -/
theorem c1_delta_decode :
    (∀ (pkt_id : Nat) (bits : List Bool),
      decompressSigned pkt_id bits = none) ∧
    (∀ c : List Bool, c.length ≤ 19 →
      toInt32 (decompressChannel c) = decodeSpec (bitsUint c)) ∧
    decodeSpec 0 = 0 ∧ decodeSpec 1 = 0 ∧
    decodeSpec 2 = 2 ∧ decodeSpec 3 = -2 :=
  ⟨fun _ _ => rfl, fun _ hc => decompressChannel_decodeSpec hc,
   by decide, by decide, by decide, by decide⟩

/-- Witness for c1_delta_decode: the decode of an 18-byte compressed
payload raises, and the per-chunk rule at the 18-bit code 1 gives
delta 0. -/
theorem c1_delta_decode_witness :
    decompressSigned 1 (bytesBits (List.replicate 18 0)) = none ∧
    toInt32 (decompressChannel (List.replicate 17 false ++ [true]))
      = decodeSpec (bitsUint (List.replicate 17 false ++ [true])) :=
  ⟨c1_delta_decode.1 1 (bytesBits (List.replicate 18 0)),
   c1_delta_decode.2.1 (List.replicate 17 false ++ [true]) (by decide)⟩

/-- C2: for every incoming tag num outside {0, 206, 207}, the dropped
count computed by _upd_sample_count against the last observed tag is
num - 101 when last_id is 0 and num is at least 101, num - 1 when
last_id is 0 and num is below 101, and (num - last_id) - 1 when
last_id is not 0; this computation (lines 266-273) executes before the
dummy loop, and _upd_sample_count proceeds with exactly this value. -/
theorem c2_gap_count (st : DelegateState) (num : Nat)
    (h0 : num ≠ 0) (h206 : num ≠ 206) (h207 : num ≠ 207) :
    gapCount st.last_id num =
      (if st.last_id = 0 then
        (if 101 ≤ num then (num : Int) - 101 else (num : Int) - 1)
      else ((num : Int) - st.last_id) - 1) ∧
    updSampleCount st num =
      (match dummyLoop st ((gapCount st.last_id num + 1).toNat) with
       | .ok ds st2 => .ok (gapCount st.last_id num) ds
           { st2 with last_id := (num : Int) }
       | .exc e => .exc e) := by
  refine ⟨rfl, ?_⟩
  unfold updSampleCount
  rw [if_neg (by tauto)]

/-- Witness for c2_gap_count: last tag 0 and incoming tag 105 give a
dropped count of 4. -/
theorem c2_gap_count_witness : gapCount (0 : Int) 105 = 4 := by
  have h := (c2_gap_count (⟨[0, 0, 0, 0], 0, 0, false⟩ : DelegateState)
    105 (by decide) (by decide) (by decide)).1
  exact h.trans (by decide)

/-- C3 (code bug): when a positive gap count is detected, the decoder
emits no placeholder at all: the first
OpenBCISample(self._sample_cnt, nan) construction in the dummy loop
raises TypeError, so the TypeError escapes with the whole delegate
state untouched (last_id, counter and resync flag included) and no
transition to AwaitingFullFrame is reached. -/
theorem c3_gap_crash (st : DelegateState) (num : Nat) (rest : List Nat)
    (hw : st.wait_for_full_pkt = false)
    (h0 : num ≠ 0) (h206 : num ≠ 206) (h207 : num ≠ 207)
    (hg : 0 < gapCount st.last_id num) :
    handleNotification st (num :: rest) = .exc st [] ∧
    mkSample st.sample_cnt nanChannels = none :=
  ⟨handleFrame_upd_exc st num rest (by tauto) (by omega), rfl⟩

/-- Witness for c3_gap_crash at last tag 0, incoming tag 105 (gap 4):
the handler raises and the state is unchanged. -/
theorem c3_gap_crash_witness :
    handleNotification (⟨[0, 0, 0, 0], 0, 0, false⟩ : DelegateState)
        (105 :: List.replicate 19 0) =
      .exc (⟨[0, 0, 0, 0], 0, 0, false⟩ : DelegateState) [] := by
  have h := c3_gap_crash (⟨[0, 0, 0, 0], 0, 0, false⟩ : DelegateState)
    105 (List.replicate 19 0) rfl (by decide) (by decide) (by decide)
    (by decide)
  exact h.1

/-- C4 (code bug): a compressed frame in the Streaming state never
emits its two samples: when the gap count is non-negative (the gap-0
in-sequence case included) the dummy loop of _upd_sample_count raises
TypeError before any decode, with the state untouched; when the gap
count is negative the frame reaches the decode path but
_decompress_signed raises TypeError slicing the cut() generator, with
last_id already updated and prev and the counter unchanged. -/
theorem c4_compressed_crash (st : DelegateState) (num : Nat)
    (rest : List Nat) (hw : st.wait_for_full_pkt = false)
    (h1 : 1 ≤ num) (h2 : num ≤ 200) :
    (0 ≤ gapCount st.last_id num →
      handleNotification st (num :: rest) = .exc st []) ∧
    (gapCount st.last_id num < 0 →
      handleNotification st (num :: rest) =
        .exc { st with last_id := (num : Int) } []) :=
  ⟨fun hg => handleFrame_upd_exc st num rest (by omega) hg,
   fun hg => handleFrame_compressed_exc st num rest hw h1 h2 hg⟩

/-- Witness for c4_compressed_crash: a tag-2 frame right after tag 1
(gap count 0) raises with the state untouched. -/
theorem c4_compressed_crash_witness :
    handleNotification (⟨[0, 0, 0, 0], 1, 3, false⟩ : DelegateState)
        (2 :: List.replicate 18 0) =
      .exc (⟨[0, 0, 0, 0], 1, 3, false⟩ : DelegateState) [] := by
  have h := c4_compressed_crash (⟨[0, 0, 0, 0], 1, 3, false⟩ : DelegateState)
    2 (List.replicate 18 0) rfl (by decide) (by decide)
  exact h.1 (by decide)

/-- C5 (code bug): no run of the decoder ever emits a sample: every
emission site raises TypeError at the OpenBCISample construction
before the sample reaches the result queue, so there are no emitted
sequence numbers to compare; the claim describes the numbering of
emitted samples, which do not exist. -/
theorem c5_no_samples_emitted :
    (∀ (st : DelegateState) (data : List Nat),
      (handleNotification st data).samples = []) ∧
    (∀ (st : DelegateState) (frames : List (List Nat)),
      (runFrames st frames).samples = []) :=
  ⟨fun st data => handleNotification_samples st data,
   fun st frames => runFrames_samples frames st⟩

/-- C6 (code bug): of the claimed resync state machine only part is
real.  The decoder starts in AwaitingFullFrame, and a tag-0 frame in
the waiting state does clear the flag (line 218 runs before the
emission raises, so the exception escapes with the flag already
cleared and prev overwritten).  But the transition back to
AwaitingFullFrame never occurs: a positive gap raises TypeError inside
the dummy loop of _upd_sample_count, before handleNotification can
reach the wait_for_full_pkt = True assignment, leaving the state
untouched; and while waiting, a nonzero-tag frame emits no placeholder
samples at all (their construction raises or the dummy list is empty),
though it does leave prev and the flag unchanged. -/
theorem c6_resync_state_machine :
    initState.wait_for_full_pkt = true ∧
    (∀ (st : DelegateState) (rest : List Nat),
      st.wait_for_full_pkt = true →
      handleNotification st (0 :: rest) =
        .exc { st with last_id := 0,
                       last_values := decodeFullFrame rest,
                       wait_for_full_pkt := false } []) ∧
    (∀ (st : DelegateState) (num : Nat) (rest : List Nat),
      st.wait_for_full_pkt = false →
      ¬(num = 0 ∨ num = 206 ∨ num = 207) →
      0 < gapCount st.last_id num →
      handleNotification st (num :: rest) = .exc st []) ∧
    (∀ (st : DelegateState) (num : Nat) (rest : List Nat),
      st.wait_for_full_pkt = true → num ≠ 0 →
      (handleNotification st (num :: rest)).samples = [] ∧
      (handleNotification st (num :: rest)).state.last_values
        = st.last_values ∧
      (handleNotification st (num :: rest)).state.wait_for_full_pkt
        = true) := by
  refine ⟨rfl, ?_, ?_, ?_⟩
  · intro st rest hw
    exact handleFrame_full st rest
  · intro st num rest hw hmark hg
    exact handleFrame_upd_exc st num rest hmark (by omega)
  · intro st num rest hw hnum
    have heq : handleNotification st (num :: rest) =
        handleFrame st num rest := rfl
    by_cases hmark : num = 206 ∨ num = 207
    · rw [heq, handleFrame_marker st num rest hmark]
      exact ⟨rfl, rfl, hw⟩
    · by_cases hg : 0 ≤ gapCount st.last_id num
      · rw [heq, handleFrame_upd_exc st num rest (by tauto) hg]
        exact ⟨rfl, rfl, hw⟩
      · have hgneg : gapCount st.last_id num < 0 := by omega
        have hm := updSampleCount_neg st num (by tauto) hgneg
        rw [heq, handleFrame_wait_nonzero st num rest _ _ _ hw hnum hm]
        exact ⟨rfl, rfl, hw⟩

/-- Witness for c6_resync_state_machine: a tag-0 frame in the waiting
state clears the flag and then raises at the emission; a positive gap
in the Streaming state raises with the state untouched; a tag-206
frame in the waiting state emits nothing and keeps prev and the
flag. -/
theorem c6_resync_state_machine_witness :
    handleNotification (⟨[9, 9, 9, 9], 5, 2, true⟩ : DelegateState)
        (0 :: List.replicate 12 0) =
      .exc (⟨[0, 0, 0, 0], 0, 2, false⟩ : DelegateState) [] ∧
    handleNotification (⟨[0, 0, 0, 0], 1, 3, false⟩ : DelegateState)
        (5 :: List.replicate 18 0) =
      .exc (⟨[0, 0, 0, 0], 1, 3, false⟩ : DelegateState) [] ∧
    (handleNotification (⟨[7, 7, 7, 7], 3, 1, true⟩ : DelegateState)
        [206]).samples = [] ∧
    (handleNotification (⟨[7, 7, 7, 7], 3, 1, true⟩ : DelegateState)
        [206]).state.last_values = [7, 7, 7, 7] ∧
    (handleNotification (⟨[7, 7, 7, 7], 3, 1, true⟩ : DelegateState)
        [206]).state.wait_for_full_pkt = true := by
  refine ⟨?_, ?_, ?_⟩
  · have h := c6_resync_state_machine.2.1
      (⟨[9, 9, 9, 9], 5, 2, true⟩ : DelegateState)
      (List.replicate 12 0) rfl
    exact h.trans (by decide)
  · exact c6_resync_state_machine.2.2.1
      (⟨[0, 0, 0, 0], 1, 3, false⟩ : DelegateState) 5
      (List.replicate 18 0) rfl (by decide) (by decide)
  · exact c6_resync_state_machine.2.2.2
      (⟨[7, 7, 7, 7], 3, 1, true⟩ : DelegateState) 206 [] rfl (by decide)

/-- C7 counterexample: a 1-byte payload with tag 0 (12 bytes shorter
than the tag requires) is not dropped as malformed: in the Streaming
state the decoder overwrites last_id with 0 and the stored absolute
values with the empty truncated decode, and then raises TypeError at
the emission site, contradicting no-state-mutation and no-crash. -/
theorem c7_counterexample :
    handleNotification (⟨[7, 8, 9, 10], 1, 5, false⟩ : DelegateState) [0] =
      .exc (⟨[], 0, 5, false⟩ : DelegateState) [] ∧
    ¬((⟨[], 0, 5, false⟩ : DelegateState) =
        (⟨[7, 8, 9, 10], 1, 5, false⟩ : DelegateState)) :=
  ⟨by decide, by decide⟩

/-- C7 (amended): only a payload of length zero is dropped with no
sample emitted and no state mutation; a payload that is non-empty but
shorter than its tag format requires is not detected as malformed: no
sample is emitted, but for a tag-0 payload the decoder overwrites
last_id and the absolute values with the truncated decode and then
raises TypeError at the emission site. -/
theorem c7_short_payloads :
    (∀ (st : DelegateState) (data : List Nat), data.length < 1 →
      handleNotification st data = .ok st []) ∧
    (∀ (st : DelegateState) (rest : List Nat),
      st.wait_for_full_pkt = false →
      handleNotification st (0 :: rest) =
        .exc { st with last_id := 0,
                       last_values := decodeFullFrame rest } []) := by
  constructor
  · intro st data h
    cases data with
    | nil => rfl
    | cons num rest => simp at h
  · intro st rest hw
    have heq : handleNotification st (0 :: rest) =
        handleFrame st 0 rest := rfl
    rw [heq, handleFrame_full st rest]
    simp [hw]

/-- Witness for c7_short_payloads: the empty payload is a no-op, and
the 1-byte tag-0 payload mutates the state and raises. -/
theorem c7_short_payloads_witness :
    handleNotification (⟨[1, 2, 3, 4], 5, 7, true⟩ : DelegateState) [] =
      .ok (⟨[1, 2, 3, 4], 5, 7, true⟩ : DelegateState) [] ∧
    handleNotification (⟨[6, 6, 6, 6], 2, 9, false⟩ : DelegateState) [0] =
      .exc (⟨[], 0, 9, false⟩ : DelegateState) [] := by
  constructor
  · exact c7_short_payloads.1
      (⟨[1, 2, 3, 4], 5, 7, true⟩ : DelegateState) [] (by decide)
  · have h := c7_short_payloads.2
      (⟨[6, 6, 6, 6], 2, 9, false⟩ : DelegateState) [] rfl
    exact h.trans (by decide)

/-- C8 counterexample: a frame tagged 206 leaves the sample counter
unchanged at 7; it does not advance it to 8 as the claim states, since
tags 206 and 207 skip the entire dropped-frame block of
_upd_sample_count and match no decode branch. -/
theorem c8_counterexample :
    handleNotification (⟨[1, 2, 3, 4], 5, 7, false⟩ : DelegateState)
        [206] =
      .ok (⟨[1, 2, 3, 4], 206, 7, false⟩ : DelegateState) [] ∧
    (⟨[1, 2, 3, 4], 206, 7, false⟩ : DelegateState).sample_cnt ≠ 7 + 1 :=
  ⟨by decide, by decide⟩

/-- C8 (amended): a frame tagged 206 or 207 emits no channel sample,
leaves the running sample counter and the absolute channel values
unchanged, updates last_id to the tag value, and returns normally. -/
theorem c8_marker_frames (st : DelegateState) (num : Nat)
    (rest : List Nat) (h : num = 206 ∨ num = 207) :
    handleNotification st (num :: rest) =
      .ok { st with last_id := (num : Int) } [] :=
  handleFrame_marker st num rest h

/-- Witness for c8_marker_frames at tag 207 in the waiting state. -/
theorem c8_marker_frames_witness :
    handleNotification (⟨[1, 2, 3, 4], 5, 7, true⟩ : DelegateState)
        [207] =
      .ok (⟨[1, 2, 3, 4], 207, 7, true⟩ : DelegateState) [] := by
  have h := c8_marker_frames (⟨[1, 2, 3, 4], 5, 7, true⟩ : DelegateState)
    207 [] (Or.inr rfl)
  exact h.trans (by decide)

/-- C9 (code bug): every emission site in ganglion.py constructs
OpenBCISample with only two positional arguments (counter and channel
array), while the record type in boards/sample.py requires four (seq,
timestamp, channel_data, board); the construction therefore fails, and
no emitted sample carries a board-type tag as the claim states. -/
theorem c9_sample_construction_fails (cnt : Nat)
    (vals : List (Option Int)) :
    callOpenBCISample (ganglionSampleArgs cnt vals) = none := rfl

/-- C10 counterexample: for last tag 50 and incoming tag 45 (gap count
-6) in the Streaming state, the decoder does not emit the two
in-sequence samples the claim asserts: it raises TypeError in
_decompress_signed, with last_id already overwritten and prev and the
counter unchanged, and zero samples on the queue. -/
theorem c10_counterexample :
    handleNotification
        (⟨[100, 200, 300, 400], 50, 9, false⟩ : DelegateState)
        (45 :: List.replicate 18 0) =
      .exc (⟨[100, 200, 300, 400], 45, 9, false⟩ : DelegateState) [] ∧
    (HandleResult.exc
        (⟨[100, 200, 300, 400], 45, 9, false⟩ : DelegateState)
        ([] : List Sample)).samples.length ≠ 2 :=
  ⟨by decide, by decide⟩

/-- C10 (amended): if the computed gap count for a compressed frame is
negative, the dummy loop runs zero times, so no placeholder samples
are generated and the sample counter does not advance, and
_upd_sample_count returns normally with last_id overwritten by the new
tag; in AwaitingFullFrame the handler then returns normally emitting
nothing; in Streaming the frame reaches the decode path but
_decompress_signed raises TypeError (slicing the cut() generator), so
nothing is emitted and the exception escapes with prev and the counter
unchanged. -/
theorem c10_negative_gap (st : DelegateState) (num : Nat)
    (rest : List Nat) (h1 : 1 ≤ num) (h2 : num ≤ 200)
    (hg : gapCount st.last_id num < 0) :
    updSampleCount st num =
      .ok (gapCount st.last_id num) [] { st with last_id := (num : Int) } ∧
    (st.wait_for_full_pkt = true →
      handleNotification st (num :: rest) =
        .ok { st with last_id := (num : Int) } []) ∧
    (st.wait_for_full_pkt = false →
      handleNotification st (num :: rest) =
        .exc { st with last_id := (num : Int) } []) := by
  have hmark : ¬(num = 0 ∨ num = 206 ∨ num = 207) := by omega
  have hm := updSampleCount_neg st num hmark hg
  refine ⟨hm, ?_, ?_⟩
  · intro hw
    exact handleFrame_wait_nonzero st num rest _ _ _ hw (by omega) hm
  · intro hw
    exact handleFrame_compressed_exc st num rest hw h1 h2 hg

/-- Witness for c10_negative_gap: last tag 50, incoming tag 45, in the
Streaming and in the waiting state. -/
theorem c10_negative_gap_witness :
    handleNotification
        (⟨[100, 200, 300, 400], 50, 9, false⟩ : DelegateState)
        (45 :: List.replicate 18 0) =
      .exc (⟨[100, 200, 300, 400], 45, 9, false⟩ : DelegateState) [] ∧
    handleNotification
        (⟨[100, 200, 300, 400], 50, 9, true⟩ : DelegateState)
        (45 :: List.replicate 18 0) =
      .ok (⟨[100, 200, 300, 400], 45, 9, true⟩ : DelegateState) [] := by
  constructor
  · have h := c10_negative_gap
      (⟨[100, 200, 300, 400], 50, 9, false⟩ : DelegateState)
      45 (List.replicate 18 0) (by decide) (by decide) (by decide)
    exact (h.2.2 rfl).trans (by decide)
  · have h := c10_negative_gap
      (⟨[100, 200, 300, 400], 50, 9, true⟩ : DelegateState)
      45 (List.replicate 18 0) (by decide) (by decide) (by decide)
    exact (h.2.1 rfl).trans (by decide)

end GanglionBio
